import Mathlib

/-!
Verification development for the Sea-Lion Telegram relay bot (`app.py`).

The file embeds the core of the program as executable Lean definitions:
the MarkdownV2 text escaper (`escape_markdown_v2`), the webhook registrar
(`set_webhook`), and the inbound update handler (`webhook_telegram`),
together with the routing decision it implements (`route`).  External HTTP
effects (the completion backend, the outbound Telegram calls) are modelled
by explicit outcome parameters: either an HTTP status code or a raised
transport exception, exactly the two behaviours the Python `requests` /
`openai` clients expose to this code.
-/

namespace SeaLionBot

/-! ### Text escaper (`app.py` lines 119-130)

`MD2_SPECIALS = r"_\*\[\]\(\)~`>#+\-=|{}\.!"` is a regex character class;
`_PATTERN` matches a backslash or any character of that class, and
`escape_markdown_v2` substitutes every match `c` by backslash-`c`.
Since every match of the pattern is a single character, the substitution
is exactly a left-to-right character-wise expansion. -/

/-- The characters of the regex class `MD2_SPECIALS` (regex escapes removed):
underscore, asterisk, brackets, parentheses, tilde, backtick (`\x60`),
greater-than, hash, plus, hyphen, equals, pipe, braces (`\x7b`, `\x7d`),
period, exclamation mark. -/
def MD2_SPECIALS : List Char :=
  ['_', '*', '[', ']', '(', ')', '~', '\x60', '>', '#',
   '+', '-', '=', '|', '\x7b', '\x7d', '.', '!']

/-- A character matched by `_PATTERN = re.compile(rf"(\\|[{MD2_SPECIALS}])")`:
a backslash, or any character of the `MD2_SPECIALS` class. -/
def isReservedMD2 (c : Char) : Bool :=
  c = '\\' || MD2_SPECIALS.contains c

/-- Character-wise action of `_PATTERN.sub(r"\\\1", text)`: each matched
character is replaced by backslash + itself, every other character is kept. -/
def escapeChars : List Char → List Char
  | [] => []
  | c :: cs => (if isReservedMD2 c then ['\\', c] else [c]) ++ escapeChars cs

/-- Function `escape_markdown_v2(text)` from `app.py`. -/
def escape_markdown_v2 (s : String) : String :=
  ⟨escapeChars s.data⟩

/-- Greedy decoder for the image of `escapeChars`: a backslash consumes the
following character, any other character stands for itself.  Not present in
`app.py`; used only to establish that escaping loses no information. -/
def unescapeChars : List Char → List Char
  | [] => []
  | c :: rest =>
    if c = '\\' then
      match rest with
      | [] => []
      | d :: rest2 => d :: unescapeChars rest2
    else c :: unescapeChars rest

/-- String version of `unescapeChars`. -/
def unescape_markdown_v2 (s : String) : String :=
  ⟨unescapeChars s.data⟩

/-! ### Data model of inbound Telegram updates (`app.py` lines 162-169)

The handler reads `data['message']['chat']['id']` and `data['message']['text']`
from the JSON payload.  Each field may be absent (a missing dictionary key
raises `KeyError` in Python); the model records presence with `Option`. -/

/-- The `chat` sub-object; the code consumes only its `id`. -/
structure TChat where
  id : Int
deriving DecidableEq, Repr

/-- The `message` sub-object of an update; `chat` or `text` may be absent. -/
structure TMessage where
  chat : Option TChat
  text : Option String
deriving DecidableEq, Repr

/-- An inbound update payload; the `message` key may be absent. -/
structure TUpdate where
  message : Option TMessage
deriving DecidableEq, Repr

/-- Routing decision made by the head of `webhook_telegram`:
`ignore` when the payload has no `message` key (the handler returns
`('', 200)`), `relayMessage` when chat id and text are both present, and
`keyError` when the `message` sub-object is missing `chat` (so
`data['message']['chat']` raises) or missing `text` (so
`data['message']['text']` raises). -/
inductive RoutingDecision
  | ignore
  | keyError
  | relayMessage (chatId : Int) (userText : String)
deriving DecidableEq, Repr

/-- The routing logic of `webhook_telegram` (`app.py` lines 166-169):
`if 'message' in data:` then `data['message']['chat']['id']` and
`data['message']['text']` are read, in that order. -/
def route (u : TUpdate) : RoutingDecision :=
  match u.message with
  | none => .ignore
  | some m =>
    match m.chat with
    | none => .keyError
    | some c =>
      match m.text with
      | none => .keyError
      | some t => .relayMessage c.id t

/-! ### Outcomes of external HTTP calls

An outbound call made through `requests` either completes with some HTTP
status code (no exception is raised for a non-2xx status) or raises a
transport exception (DNS failure, connection refusal, timeout). -/

/-- Result of one outbound HTTP call. -/
inductive HttpResult
  | status (code : Nat)
  | transportError
deriving DecidableEq, Repr

/-- Outcome of `client.chat.completions.create(...)` as observed by the
handler: on success the value of `response.choices[0].message.content`
(`none` models JSON `null`); `failure` models any raised exception
(transport error, non-success HTTP status raised by the client library,
or a malformed body making the attribute chain fail). -/
inductive CompletionOutcome
  | success (content : Option String)
  | failure
deriving DecidableEq, Repr

/-! ### Inbound update handler (`app.py` lines 157-204) -/

/-- The JSON payload of the outbound `sendMessage` call
(`app.py` lines 188-192). -/
structure SendPayload where
  chat_id : Int
  text : String
  parse_mode : String
deriving DecidableEq, Repr

/-- How one invocation of `webhook_telegram` terminates. -/
inductive HandlerOutcome
  /-- Return value `jsonify({'status': 'ok'})`, served by Flask with HTTP 200. -/
  | ackOk
  /-- Return value `('', 200)` for a payload without a `message` key. -/
  | emptyAck
  /-- An uncaught `KeyError` from the field reads escapes the handler. -/
  | raisedKeyError
  /-- An uncaught exception from the completion call escapes the handler. -/
  | raisedCompletionError
  /-- An uncaught transport exception from the send call escapes the handler. -/
  | raisedSendTransport
deriving DecidableEq, Repr

/-- One invocation of the handler: the outbound `sendMessage` calls it
issued (in order), and how it terminated. -/
structure HandlerTrace where
  sends : List SendPayload
  outcome : HandlerOutcome
deriving DecidableEq, Repr

/-- Handler `webhook_telegram()` from `app.py`, as a function of the inbound payload
and of the behaviour of the two external calls this invocation performs:
`completion` is what `client.chat.completions.create` does, `send` is what
`requests.post(send_url, ...)` does.  The code wraps neither call in
`try`/`except`, so a raised exception terminates the handler at that point;
a non-success status of the send call is only logged (lines 194-198) and
the handler still returns `jsonify({'status': 'ok'})`. -/
def webhook_telegram (data : TUpdate) (completion : CompletionOutcome)
    (send : HttpResult) : HandlerTrace :=
  match route data with
  | .ignore => ⟨[], .emptyAck⟩
  | .keyError => ⟨[], .raisedKeyError⟩
  | .relayMessage chatId _userText =>
    match completion with
    | .failure => ⟨[], .raisedCompletionError⟩
    | .success content =>
      let escaped := escape_markdown_v2 (content.getD "")
      let payload : SendPayload := ⟨chatId, escaped, "MarkdownV2"⟩
      match send with
      | .transportError => ⟨[payload], .raisedSendTransport⟩
      | .status _ => ⟨[payload], .ackOk⟩

/-! ### Webhook registrar (`app.py` lines 68-106) -/

/-- The two platform management calls the registrar issues. -/
inductive RegCall
  | clear
  | set
deriving DecidableEq, Repr

/-- How one invocation of `set_webhook` terminates. -/
inductive RegOutcome
  /-- Process exit via `exit(1)` on a missing credential or URL. -/
  | exited
  /-- An uncaught transport exception from one of the two calls. -/
  | raisedTransport
  /-- Normal return: log lines emitted by the two status checks, and the
  returned body and HTTP code (`jsonify({'status': ...}), 200`). -/
  | returned (logs : List String) (body : String) (code : Nat)
deriving DecidableEq, Repr

/-- One invocation of the registrar: the platform calls issued (in order)
and how it terminated. -/
structure RegTrace where
  calls : List RegCall
  outcome : RegOutcome
deriving DecidableEq, Repr

/-- Log line of the clear-call status check (`app.py` lines 92-95). -/
def clearLog (code : Nat) : String :=
  if code = 200 then "Previous Webhook removed" else "Failed to remove webhook"

/-- Log line of the set-call status check (`app.py` lines 101-104). -/
def setLog (code : Nat) : String :=
  if code = 200 then "Webhook set successfully" else "Failed to set webhook"

/-- Registrar `set_webhook()` from `app.py`, as a function of the configuration values
(Python truthiness of the three strings: the empty string is falsy) and of
the behaviour of the two `requests.post` calls.  Each status check only
selects a log line; the return value is the constant
`jsonify({'status': 'Webhook set successfully'}), 200`. -/
def set_webhook (telegramToken webhookUrl seaLionKey : String)
    (clearResp setResp : HttpResult) : RegTrace :=
  if telegramToken = "" ∨ webhookUrl = "" then ⟨[], .exited⟩
  else if seaLionKey = "" then ⟨[], .exited⟩
  else
    match clearResp with
    | .transportError => ⟨[.clear], .raisedTransport⟩
    | .status cs =>
      match setResp with
      | .transportError => ⟨[.clear, .set], .raisedTransport⟩
      | .status ss =>
        ⟨[.clear, .set],
         .returned [clearLog cs, setLog ss] "Webhook set successfully" 200⟩

/-! ### Helper lemmas -/

/-- The backslash is itself matched by `_PATTERN`. -/
lemma isReservedMD2_backslash : isReservedMD2 '\\' = true := by decide

/-- Unfolding `escapeChars` on a cons cell. -/
lemma escapeChars_cons (c : Char) (cs : List Char) :
    escapeChars (c :: cs) =
      (if isReservedMD2 c then ['\\', c] else [c]) ++ escapeChars cs := rfl

/-- The escaper is the character-wise expansion, joined. -/
lemma escapeChars_eq_join (l : List Char) :
    escapeChars l =
      (l.map (fun c => if isReservedMD2 c then ['\\', c] else [c])).flatten := by
  induction l with
  | nil => rfl
  | cons c cs ih => simp [escapeChars_cons, ih]

/-- Cons unfolding of `escapeChars` when the head is matched. -/
lemma escapeChars_cons_pos {c : Char} (h : isReservedMD2 c = true)
    (cs : List Char) : escapeChars (c :: cs) = '\\' :: c :: escapeChars cs := by
  simp [escapeChars_cons, h]

/-- Cons unfolding of `escapeChars` when the head is not matched. -/
lemma escapeChars_cons_neg {c : Char} (h : isReservedMD2 c = false)
    (cs : List Char) : escapeChars (c :: cs) = c :: escapeChars cs := by
  simp [escapeChars_cons, h]

/-- Decoder step on a character that is not the escape character. -/
lemma unescapeChars_cons_ne {c : Char} (h : c ≠ '\\') (rest : List Char) :
    unescapeChars (c :: rest) = c :: unescapeChars rest := by
  rw [unescapeChars.eq_def]
  simp [h]

/-- Decoder step on an escape sequence. -/
lemma unescapeChars_cons_esc (d : Char) (rest : List Char) :
    unescapeChars ('\\' :: d :: rest) = d :: unescapeChars rest := by
  rw [unescapeChars.eq_def]
  simp

/-- The greedy decoder undoes the escaper on every character list. -/
lemma unescapeChars_escapeChars (l : List Char) :
    unescapeChars (escapeChars l) = l := by
  induction l with
  | nil => rfl
  | cons c cs ih =>
    rcases Bool.eq_false_or_eq_true (isReservedMD2 c) with h | h
    · rw [escapeChars_cons_pos h, unescapeChars_cons_esc, ih]
    · have hne : c ≠ '\\' := by
        intro hc
        rw [hc, isReservedMD2_backslash] at h
        exact Bool.true_eq_false.mp h
      rw [escapeChars_cons_neg h, unescapeChars_cons_ne hne, ih]

/-- Injectivity of `escapeChars`. -/
lemma escapeChars_injective {x y : List Char}
    (h : escapeChars x = escapeChars y) : x = y := by
  have := congrArg unescapeChars h
  rwa [unescapeChars_escapeChars, unescapeChars_escapeChars] at this

/-! ### Claim theorems -/

/-- Claim C1 (counterexample): routing does not degrade every partial payload
to the Ignore decision.  The concrete payload `{"message": {}}` — a message
sub-object missing both the chat identity and the text field — is not routed
as Ignore: the field read `data['message']['chat']` raises a `KeyError`
which escapes the handler. -/
theorem route_keyError_counterexample :
    route ⟨some ⟨none, none⟩⟩ ≠ .ignore ∧
    (webhook_telegram ⟨some ⟨none, none⟩⟩ (.success none) (.status 200)).outcome
      = .raisedKeyError :=
  ⟨by decide, rfl⟩

/-- Claim C1 (amended): a payload without a `message` key is handled as a
no-op acknowledgment `('', 200)` with no outbound send call; but a payload
whose `message` sub-object is missing the chat identity or the text field
makes a `KeyError` escape the handler instead of yielding Ignore. -/
theorem webhook_telegram_partial_payload (u : TUpdate)
    (completion : CompletionOutcome) (send : HttpResult) :
    (u.message = none → webhook_telegram u completion send = ⟨[], .emptyAck⟩) ∧
    (∀ m, u.message = some m → (m.chat = none ∨ m.text = none) →
      webhook_telegram u completion send = ⟨[], .raisedKeyError⟩) := by
  constructor
  · intro h
    simp [webhook_telegram, route, h]
  · intro m hm hor
    rcases hor with hc | ht
    · simp [webhook_telegram, route, hm, hc]
    · cases hchat : m.chat with
      | none => simp [webhook_telegram, route, hm, hchat]
      | some c => simp [webhook_telegram, route, hm, hchat, ht]

/-- Witness for the amended C1 theorem at concrete payloads. -/
theorem webhook_telegram_partial_payload_witness :
    webhook_telegram ⟨some ⟨none, some "hi"⟩⟩ (.success none) (.status 200)
      = ⟨[], .raisedKeyError⟩ :=
  (webhook_telegram_partial_payload ⟨some ⟨none, some "hi"⟩⟩
    (.success none) (.status 200)).2 ⟨none, some "hi"⟩ rfl (Or.inl rfl)

/-- Claim C2 (counterexample): on a completion-backend failure the handler
does issue no outbound send, but it does not acknowledge the inbound
delivery with success: the exception escapes the handler (Flask answers
with an error status, not with the success acknowledgment). -/
theorem completion_failure_counterexample :
    (webhook_telegram ⟨some ⟨some ⟨5⟩, some "hi"⟩⟩ .failure (.status 200)).sends
      = [] ∧
    (webhook_telegram ⟨some ⟨some ⟨5⟩, some "hi"⟩⟩ .failure (.status 200)).outcome
      = .raisedCompletionError ∧
    (webhook_telegram ⟨some ⟨some ⟨5⟩, some "hi"⟩⟩ .failure (.status 200)).outcome
      ≠ .ackOk :=
  ⟨rfl, rfl, by decide⟩

/-- Claim C2 (amended): for every update routed as RelayMessage, a failing
completion call leaves the handler with no outbound send issued, and the
failure propagates out of the handler as an uncaught exception — the inbound
delivery is not acknowledged with success. -/
theorem webhook_telegram_completion_failure (u : TUpdate) (cid : Int)
    (t : String) (send : HttpResult) (h : route u = .relayMessage cid t) :
    webhook_telegram u .failure send = ⟨[], .raisedCompletionError⟩ := by
  simp [webhook_telegram, h]

/-- Witness for the amended C2 theorem at a concrete update. -/
theorem webhook_telegram_completion_failure_witness :
    webhook_telegram ⟨some ⟨some ⟨7⟩, some "hello"⟩⟩ .failure (.status 200)
      = ⟨[], .raisedCompletionError⟩ :=
  webhook_telegram_completion_failure ⟨some ⟨some ⟨7⟩, some "hello"⟩⟩
    7 "hello" (.status 200) rfl

/-- Claim C3: the escaper is total and is the left-to-right, non-overlapping,
character-wise pass that prefixes every reserved character (the backslash
escape character itself, and each character of the `MD2_SPECIALS` class)
with exactly one backslash and keeps every other character unchanged; in
particular it maps the empty string to the empty string and
`"Hello_World!"` to `"Hello\_World\!"`. -/
theorem escape_markdown_v2_spec :
    escape_markdown_v2 "" = "" ∧
    escape_markdown_v2 "Hello_World!" = "Hello\\_World\\!" ∧
    (∀ c cs, escapeChars (c :: cs) =
      (if isReservedMD2 c then ['\\', c] else [c]) ++ escapeChars cs) ∧
    (∀ s : String, (escape_markdown_v2 s).data =
      (s.data.map (fun c => if isReservedMD2 c then ['\\', c] else [c])).flatten) :=
  ⟨rfl, by decide, fun c cs => rfl, fun s => escapeChars_eq_join s.data⟩

/-- Claim C4 (counterexample): a transport failure of the outbound send call
does change the acknowledgment — the exception raised by the send call
escapes the handler, so the success acknowledgment is not returned. -/
theorem send_transport_counterexample :
    (webhook_telegram ⟨some ⟨some ⟨1⟩, some "hey"⟩⟩ (.success (some "reply"))
      .transportError).outcome = .raisedSendTransport ∧
    (webhook_telegram ⟨some ⟨some ⟨1⟩, some "hey"⟩⟩ (.success (some "reply"))
      .transportError).outcome ≠ .ackOk :=
  ⟨rfl, by decide⟩

/-- Claim C4 (amended): for every update routed as RelayMessage whose
completion call succeeds, the handler acknowledges the inbound delivery
with success for every HTTP status of the outbound send call — a
non-success send status only produces a log line; but a transport failure
of the send call raises an exception that escapes the handler. -/
theorem webhook_telegram_send_status_ack (u : TUpdate) (cid : Int)
    (t : String) (content : Option String) (s : Nat)
    (h : route u = .relayMessage cid t) :
    (webhook_telegram u (.success content) (.status s)).outcome = .ackOk := by
  simp [webhook_telegram, h]

/-- Witness for the amended C4 theorem at a concrete update and a
non-success send status. -/
theorem webhook_telegram_send_status_ack_witness :
    (webhook_telegram ⟨some ⟨some ⟨2⟩, some "yo"⟩⟩ (.success (some "r"))
      (.status 500)).outcome = .ackOk :=
  webhook_telegram_send_status_ack ⟨some ⟨some ⟨2⟩, some "yo"⟩⟩
    2 "yo" (some "r") 500 rfl

/-- Claim C5: with the configuration present, the registrar issues exactly
the clear call then the set call, in that order, for every pair of HTTP
statuses of the two calls (so a non-success clear status does not prevent
the set call), and it terminates normally — no exit and no crash — with the
two status checks only selecting log lines. -/
theorem set_webhook_two_calls (token url key : String) (cs ss : Nat)
    (h1 : token ≠ "") (h2 : url ≠ "") (h3 : key ≠ "") :
    (set_webhook token url key (.status cs) (.status ss)).calls
      = [.clear, .set] ∧
    (set_webhook token url key (.status cs) (.status ss)).outcome
      = .returned [clearLog cs, setLog ss] "Webhook set successfully" 200 := by
  simp [set_webhook, h1, h2, h3]

/-- Witness for the C5 theorem with non-success statuses on both calls. -/
theorem set_webhook_two_calls_witness :
    (set_webhook "tok" "url" "key" (.status 404) (.status 503)).calls
      = [.clear, .set] ∧
    (set_webhook "tok" "url" "key" (.status 404) (.status 503)).outcome
      = .returned [clearLog 404, setLog 503] "Webhook set successfully" 200 :=
  set_webhook_two_calls "tok" "url" "key" 404 503
    (by decide) (by decide) (by decide)

/-- Claim C6: routing returns Ignore for every update without a message
sub-object, and RelayMessage carrying exactly the chat identity and the text
of the message sub-object whenever both fields are present. -/
theorem route_spec (u : TUpdate) :
    (u.message = none → route u = .ignore) ∧
    (∀ m c t, u.message = some m → m.chat = some c → m.text = some t →
      route u = .relayMessage c.id t) := by
  constructor
  · intro h
    simp [route, h]
  · intro m c t hm hc ht
    simp [route, hm, hc, ht]

/-- Witness for the C6 theorem at concrete updates. -/
theorem route_spec_witness :
    route ⟨none⟩ = .ignore ∧
    route ⟨some ⟨some ⟨42⟩, some "hi"⟩⟩ = .relayMessage 42 "hi" :=
  ⟨(route_spec ⟨none⟩).1 rfl,
   (route_spec ⟨some ⟨some ⟨42⟩, some "hi"⟩⟩).2
     ⟨some ⟨42⟩, some "hi"⟩ ⟨42⟩ "hi" rfl rfl rfl⟩

/-- Claim C7: when the completion backend returns an empty or missing (null)
content for the first choice, the handler treats it as a success: it issues
exactly one outbound send whose text is `escape_markdown_v2("") = ""` with
parse mode `"MarkdownV2"` still set, and acknowledges with success. -/
theorem webhook_telegram_empty_content (cid : Int) (t : String)
    (content : Option String) (s : Nat)
    (h : content = none ∨ content = some "") :
    webhook_telegram ⟨some ⟨some ⟨cid⟩, some t⟩⟩ (.success content) (.status s)
      = ⟨[⟨cid, "", "MarkdownV2"⟩], .ackOk⟩ ∧
    escape_markdown_v2 "" = "" := by
  constructor
  · rcases h with h | h <;> subst h <;> rfl
  · rfl

/-- Witness for the C7 theorem at a concrete update with null content. -/
theorem webhook_telegram_empty_content_witness :
    webhook_telegram ⟨some ⟨some ⟨3⟩, some "q"⟩⟩ (.success none) (.status 200)
      = ⟨[⟨3, "", "MarkdownV2"⟩], .ackOk⟩ ∧
    escape_markdown_v2 "" = "" :=
  webhook_telegram_empty_content 3 "q" none 200 (Or.inl rfl)

/-- Claim C8: the escaper is not idempotent on already-escaped output — on
the input `"_"`, which contains a reserved character, one application gives
`"\_"` while a second application gives `"\\\_"`, which differs. -/
theorem escape_markdown_v2_not_idempotent :
    isReservedMD2 '_' = true ∧
    escape_markdown_v2 "_" = "\\_" ∧
    escape_markdown_v2 (escape_markdown_v2 "_") = "\\\\\\_" ∧
    escape_markdown_v2 (escape_markdown_v2 "_") ≠ escape_markdown_v2 "_" :=
  ⟨rfl, rfl, rfl, by decide⟩

/-- Claim C9: with the configuration present, for every pair of HTTP
statuses of the clear and set calls — including non-success statuses on
either or both — the registrar returns the constant success summary, body
`"Webhook set successfully"` with HTTP code 200; the return value never
reflects a registration failure (only the log lines vary). -/
theorem set_webhook_constant_success (token url key : String) (cs ss : Nat)
    (h1 : token ≠ "") (h2 : url ≠ "") (h3 : key ≠ "") :
    ∃ logs, (set_webhook token url key (.status cs) (.status ss)).outcome
      = .returned logs "Webhook set successfully" 200 :=
  ⟨[clearLog cs, setLog ss], by simp [set_webhook, h1, h2, h3]⟩

/-- Witness for the C9 theorem with non-success statuses on both calls. -/
theorem set_webhook_constant_success_witness :
    ∃ logs, (set_webhook "t" "u" "k" (.status 500) (.status 500)).outcome
      = .returned logs "Webhook set successfully" 200 :=
  set_webhook_constant_success "t" "u" "k" 500 500
    (by decide) (by decide) (by decide)

/-- Claim C10: the escaper loses no information — the greedy decoder
`unescape_markdown_v2` recovers every input from its escaped form, and
consequently `escape_markdown_v2` is injective. -/
theorem escape_markdown_v2_injective :
    (∀ s : String, unescape_markdown_v2 (escape_markdown_v2 s) = s) ∧
    (∀ x y : String, escape_markdown_v2 x = escape_markdown_v2 y → x = y) := by
  constructor
  · intro s
    show (⟨unescapeChars (escapeChars s.data)⟩ : String) = s
    rw [unescapeChars_escapeChars]
  · intro x y h
    have hdata : escapeChars x.data = escapeChars y.data :=
      congrArg String.data h
    have hxy : x.data = y.data := escapeChars_injective hdata
    cases x
    cases y
    exact congrArg String.mk hxy

/-- Witness for the C10 theorem at a concrete string. -/
theorem escape_markdown_v2_injective_witness :
    unescape_markdown_v2 (escape_markdown_v2 "a_b") = "a_b" ∧
    ("a_b" : String) = "a_b" :=
  ⟨escape_markdown_v2_injective.1 "a_b",
   escape_markdown_v2_injective.2 "a_b" "a_b" rfl⟩

end SeaLionBot
